import Mathlib

/-!
Verification development for the CV_Screener backend
(src/backend/api_client.py, src/backend/cv_screener.py, src/backend/main.py).

The Python code is shallowly embedded: pure logic becomes Lean functions;
effectful calls (the external model API, libmagic content sniffing, PDF
rendering, Excel serialization, the file system) become explicit oracle
parameters; a raised Python exception becomes the error branch of
`Except String`, carrying the message that `str(e)` would produce.
-/

/- ---------------------------------------------------------------------
   String helpers mirroring the Python primitives used by the code.
--------------------------------------------------------------------- -/

/-- Character-list version of "the first list leads the second", used to
build the Python string predicates below. -/
def charsLead : List Char → List Char → Bool
  | [], _ => true
  | _ :: _, [] => false
  | a :: as, b :: bs => a == b && charsLead as bs

/-- Substring test on character lists: Python `needle in hay` for `str`. -/
def charsWithin (n : List Char) : List Char → Bool
  | [] => charsLead n []
  | c :: hs => charsLead n (c :: hs) || charsWithin n hs

/-- Python `s.endswith(suff)`. -/
def pyEndsWith (s suff : String) : Bool :=
  charsLead suff.data.reverse s.data.reverse

/-- Python `needle in hay` for strings (substring containment). -/
def strWithin (needle hay : String) : Bool :=
  charsWithin needle.data hay.data

/-- Python `s.lower()`. -/
def pyLower (s : String) : String :=
  String.mk (s.data.map Char.toLower)

/-- `os.path.basename`: the part of the path after the last slash. -/
def basename (p : String) : String :=
  String.mk ((p.data.reverse.takeWhile (fun c => !(c == '/'))).reverse)

/- ---------------------------------------------------------------------
   JSON values, as produced by Python json.loads.
--------------------------------------------------------------------- -/

/-- A decoded JSON value (the possible results of `json.loads`). -/
inductive Json where
  | null
  | bool (b : Bool)
  | num (n : Int)
  | str (s : String)
  | arr (xs : List Json)
  | obj (kvs : List (String × Json))

/-- Python `s == v` between a `str` and an arbitrary decoded JSON value:
true exactly when `v` is the same string. -/
def jsonEqStr (s : String) : Json → Bool
  | Json.str t => s == t
  | _ => false

/-- Python `field in result` on a decoded JSON value: key membership for a
dict, element membership for a list, substring for a str; a TypeError for
the non-container values. -/
def pyContains (s : String) : Json → Except String Bool
  | Json.obj kvs => Except.ok (kvs.any (fun kv => kv.fst == s))
  | Json.arr xs => Except.ok (xs.any (jsonEqStr s))
  | Json.str t => Except.ok (strWithin s t)
  | _ => Except.error "TypeError: argument is not iterable"

/-- `pyContains` collapsed to a Bool (a TypeError counts as not-member). -/
def pyMemOk (s : String) (j : Json) : Bool :=
  match pyContains s j with
  | Except.ok b => b
  | Except.error _ => false

/- ---------------------------------------------------------------------
   api_client.py : GeminiAIClient._parse_response
--------------------------------------------------------------------- -/

/-- The nine required fields, in the order the source lists them. -/
def required_fields : List String :=
  ["full_name", "email", "education",
   "experience", "skills", "required_skills_match",
   "preferred_skills_match", "recommendation",
   "justification"]

/-- The `for field in required_fields` loop of `_parse_response`: raise on
the first field whose Python membership test fails (or TypeErrors), and
return `result` unchanged otherwise. -/
def fieldsCheck : List String → Json → Except String Json
  | [], result => Except.ok result
  | f :: fs, result =>
    match pyContains f result with
    | Except.error e => Except.error e
    | Except.ok b =>
      if b then fieldsCheck fs result
      else Except.error ("Missing required field: " ++ f)

/-- `GeminiAIClient._parse_response`, from the response text onward.
`decoded` is the outcome of `json.loads` on the response content
(`none` models a JSONDecodeError).  The surrounding try/except wraps any
failure into the ParseError message `Failed to parse API response: ...`. -/
def parse_response (decoded : Option Json) : Except String Json :=
  match decoded with
  | none => Except.error "Failed to parse API response: JSONDecodeError"
  | some result =>
    match fieldsCheck required_fields result with
    | Except.ok r => Except.ok r
    | Except.error e => Except.error ("Failed to parse API response: " ++ e)

/-- The reading of C3 under which a JSON text `contains the nine required
fields`: the decoded value is an object whose keys include all nine. -/
def hasNineFields : Json → Bool
  | Json.obj kvs => required_fields.all (fun f => kvs.any (fun kv => kv.fst == f))
  | _ => false

/-- Python membership of every required field name in the decoded value
(the check the code actually performs). -/
def allNineMember (j : Json) : Bool :=
  required_fields.all (fun f => pyMemOk f j)

/- ---------------------------------------------------------------------
   api_client.py : GeminiAIClient._call_gemini_api (retry loop)
--------------------------------------------------------------------- -/

def max_retries : Nat := 3

def retry_delay : Nat := 1

/-- One run of the retry loop: final result, the backoff delays slept
(in order), and how many attempts were made. -/
structure RetryRun (R : Type) where
  result : Except String R
  delays : List Nat
  attemptsMade : Nat

/-- The `for attempt in range(max_retries)` loop of `_call_gemini_api`.
`attempts i` is the outcome of the i-th API call; `i` is the current
attempt index and `n + 1` the number of iterations left, so `n = 0` is
exactly the source condition `attempt == max_retries - 1` (re-raise);
otherwise sleep `retry_delay * (2 ** attempt)` and continue.  The
`0` branch (loop exhausted) is unreachable from `call_gemini_api`. -/
def retryGo {R : Type} (attempts : Nat → Except String R) :
    Nat → Nat → RetryRun R
  | _, 0 => ⟨Except.error "loop exhausted", [], 0⟩
  | i, n + 1 =>
    match attempts i with
    | Except.ok r => ⟨Except.ok r, [], 1⟩
    | Except.error e =>
      if n = 0 then ⟨Except.error e, [], 1⟩
      else
        let rest := retryGo attempts (i + 1) n
        ⟨rest.result, retry_delay * 2 ^ i :: rest.delays, rest.attemptsMade + 1⟩

/-- `GeminiAIClient._call_gemini_api` with the API call abstracted as the
oracle `attempts`. -/
def call_gemini_api {R : Type} (attempts : Nat → Except String R) : RetryRun R :=
  retryGo attempts 0 max_retries

/- ---------------------------------------------------------------------
   cv_screener.py : extraction and validation
--------------------------------------------------------------------- -/

/-- One entry of the submitted ZIP archive: its name inside the archive
and its content bytes. -/
structure ZipEntry where
  name : String
  content : List Nat

/-- `CVScreener._is_valid_pdf`: content-sniff the materialized file with
libmagic (the oracle `sniff`; an error models a raised exception, which
the source turns into `False`) and accept only `application/pdf`. -/
def is_valid_pdf (sniff : List Nat → Except String String)
    (content : List Nat) : Bool :=
  match sniff content with
  | Except.ok t => t == "application/pdf"
  | Except.error _ => false

/-- The `for file in zf.namelist()` loop of `CVScreener._extract_zip`,
with `acc` the accumulated `pdf_files` list: skip an entry whose
lower-cased name does not end in `.pdf`; otherwise extract it to
`os.path.join(extract_path, file)` and append that path when the
materialized bytes sniff as a PDF (the sniff-rejected file is
`os.remove`d and dropped silently). -/
def extractLoop (sniff : List Nat → Except String String)
    (extract_path : String) : List ZipEntry → List String → List String
  | [], acc => acc
  | en :: ens, acc =>
    if !pyEndsWith (pyLower en.name) ".pdf" then
      extractLoop sniff extract_path ens acc
    else if is_valid_pdf sniff en.content then
      extractLoop sniff extract_path ens (acc ++ [extract_path ++ "/" ++ en.name])
    else
      extractLoop sniff extract_path ens acc

/-- `CVScreener._extract_zip` over a readable archive. -/
def extract_zip (sniff : List Nat → Except String String)
    (entries : List ZipEntry) (extract_path : String) : List String :=
  extractLoop sniff extract_path entries []

/-- The same, starting from the archive bytes: `zipfile.ZipFile` on an
unreadable archive raises (the `Except.error` branch of `archive`), and
that exception propagates out of `_extract_zip`. -/
def extract_zip_of_archive (sniff : List Nat → Except String String)
    (archive : Except String (List ZipEntry)) (extract_path : String) :
    Except String (List String) :=
  match archive with
  | Except.error e => Except.error e
  | Except.ok entries => Except.ok (extract_zip sniff entries extract_path)

/- ---------------------------------------------------------------------
   cv_screener.py : per-document processing and the batch loop
--------------------------------------------------------------------- -/

/-- A row appended to `self.results`: either the merged analysis dict of a
successfully processed CV, or the filename/error dict of a failed one. -/
inductive CVOutcome where
  | success (filename : String) (analysis : Json)
  | failure (filename : String) (error : String)

/-- The filename stored in a result row. -/
def CVOutcome.filename : CVOutcome → String
  | CVOutcome.success f _ => f
  | CVOutcome.failure f _ => f

/-- The mutable fields of a `CVScreener` instance. -/
structure ScreenerState where
  results : List CVOutcome
  processed_count : Nat
  total_count : Nat
  current_status : String

/-- `CVScreener.__init__`: empty results, zero counters, `Initializing`. -/
def initScreenerState : ScreenerState :=
  ⟨[], 0, 0, "Initializing"⟩

/-- `CVScreener._process_single_cv`, with rendering+encoding abstracted as
the oracle `render` (`_pdf_to_images` followed by base64 encoding, yielding
the data-URL strings) and the AI call as the oracle `analyze`
(`GeminiAIClient.analyze_cv`).  The method first mutates
`self.current_status`, so that mutation survives a failure; on success it
appends the success row.  (The source builds that row as the dict merge of
the filename key with the analysis dict, so an analysis that itself
carried a filename key would override the basename; the model keeps the
two components apart.)  Returns the mutated state and the raised
exception message, if any. -/
def processSingleCv (render : String → Except String (List String))
    (analyze : List String → Except String Json)
    (st : ScreenerState) (pdf_path : String) :
    ScreenerState × Option String :=
  let st1 := { st with current_status := "Processing " ++ basename pdf_path }
  match render pdf_path with
  | Except.error e => (st1, some e)
  | Except.ok imgs =>
    match analyze imgs with
    | Except.error e => (st1, some e)
    | Except.ok analysis =>
      ({ st1 with
          results := st1.results ++ [CVOutcome.success (basename pdf_path) analysis] },
        none)

/-- One iteration of the `for pdf_path in pdf_files` loop of
`CVScreener.process_zip`: try `_process_single_cv`; on an exception append
the failure row with the basename and the message; in the `finally` block
increment `processed_count` regardless of outcome. -/
def processDoc (render : String → Except String (List String))
    (analyze : List String → Except String Json)
    (st : ScreenerState) (pdf_path : String) : ScreenerState :=
  let (st1, err) := processSingleCv render analyze st pdf_path
  let st2 :=
    match err with
    | none => st1
    | some e =>
      { st1 with results := st1.results ++ [CVOutcome.failure (basename pdf_path) e] }
  { st2 with processed_count := st2.processed_count + 1 }

/-- The single result row the loop iteration for `pdf_path` appends. -/
def rowFor (render : String → Except String (List String))
    (analyze : List String → Except String Json)
    (pdf_path : String) : CVOutcome :=
  match render pdf_path with
  | Except.error e => CVOutcome.failure (basename pdf_path) e
  | Except.ok imgs =>
    match analyze imgs with
    | Except.error e => CVOutcome.failure (basename pdf_path) e
    | Except.ok analysis => CVOutcome.success (basename pdf_path) analysis

/- ---------------------------------------------------------------------
   cv_screener.py : _generate_excel_report
--------------------------------------------------------------------- -/

/-- The metadata block written to the `Metadata` sheet. -/
structure ReportMetadata where
  position : String
  required_skills : String
  preferred_skills : String
  generated_at : String
  total_processed : Nat

/-- The role requirements (`role_data` dict / the `JobRole` model). -/
structure RoleData where
  position : String
  requirements_must_have : List String
  requirements_nice_to_have : List String

/-- The metadata dict built by `_generate_excel_report`. -/
def buildMetadata (role : RoleData) (results : List CVOutcome) (now : String) :
    ReportMetadata :=
  ⟨role.position,
    String.intercalate ", " role.requirements_must_have,
    String.intercalate ", " role.requirements_nice_to_have,
    now,
    results.length⟩

/-- What a successful `_generate_excel_report` writes to disk. -/
structure WrittenReport where
  path : String
  sheet_names : List String
  metadata : ReportMetadata
  rows : List CVOutcome

/-- The report path: `results/cv_analysis_<timestamp>.xlsx`. -/
def output_path_for (ts : String) : String :=
  "results/cv_analysis_" ++ ts ++ ".xlsx"

/-- `CVScreener._generate_excel_report`.  `ts` is the filename timestamp
and `now` the `Generated At` timestamp (two `datetime.now()` calls);
`excelOk` is the outcome of the Excel serialization (the pandas/openpyxl
writes); any serialization failure is wrapped into the ReportError message
`Failed to generate Excel report: ...`. -/
def generate_excel_report (excelOk : Except String Unit) (role : RoleData)
    (results : List CVOutcome) (ts now : String) : Except String WrittenReport :=
  match excelOk with
  | Except.error e => Except.error ("Failed to generate Excel report: " ++ e)
  | Except.ok _ =>
    Except.ok
      ⟨output_path_for ts,
        ["Metadata", "Analysis Results"],
        buildMetadata role results now,
        results⟩

/- ---------------------------------------------------------------------
   cv_screener.py : the temp directory and the finally-block cleanup
--------------------------------------------------------------------- -/

/-- Splitting a character list at every slash, for path segments. -/
def splitCharsSlash : List Char → List (List Char)
  | [] => [[]]
  | c :: cs =>
    if c == '/' then [] :: splitCharsSlash cs
    else
      match splitCharsSlash cs with
      | [] => [[c]]
      | seg :: segs => (c :: seg) :: segs

/-- A path string as its list of segments. -/
def pathSegments (s : String) : List String :=
  (splitCharsSlash s.data).map String.mk

/-- The proper parent directories of a path given by its segments
(for a/b/c.pdf: a and a/b). -/
def parentDirs : List String → List (List String)
  | [] => []
  | [_] => []
  | seg :: rest => [seg] :: (parentDirs rest).map (fun d => seg :: d)

/-- The files under the temp directory when the try-block of `process_zip`
exits, each as its list of path segments relative to `temp`: exactly the
validated documents (sniff-rejected files were `os.remove`d during
extraction, and entries without a `.pdf` name were never extracted). -/
def tempFilesAfterRun (sniff : List Nat → Except String String)
    (entries : List ZipEntry) : List (List String) :=
  (entries.filter (fun en =>
      pyEndsWith (pyLower en.name) ".pdf" && is_valid_pdf sniff en.content)).map
    (fun en => pathSegments en.name)

/-- The subdirectories under the temp directory when the try-block exits:
`zipfile.extract` recreates the directory components of every `.pdf`-named
entry it extracts, and `os.remove` of a sniff-rejected file leaves those
directories behind. -/
def tempDirsAfterRun (entries : List ZipEntry) : List (List String) :=
  ((entries.filter (fun en => pyEndsWith (pyLower en.name) ".pdf")).map
    (fun en => parentDirs (pathSegments en.name))).flatten

/-- `os.listdir(temp_dir)`: the distinct top-level names of the files and
subdirectories under `temp`. -/
def listdirOf (files dirs : List (List String)) : List String :=
  ((files ++ dirs).map (fun f => f.headD "")).dedup

/-- The cleanup loop `for file in os.listdir(temp_dir): os.remove(...)`
followed by `os.rmdir(temp_dir)`: `os.remove` on a name that is a
directory raises IsADirectoryError, aborting the loop and leaving the
remaining contents in place; `os.rmdir` on a non-empty directory raises.
Returns the raised exception, if any, and what remains on disk. -/
def cleanupGo : List String → List (List String) → List (List String) →
    Except String Unit × (List (List String) × List (List String))
  | [], files, dirs =>
    if files.isEmpty && dirs.isEmpty then (Except.ok (), (files, dirs))
    else (Except.error "OSError: directory not empty", (files, dirs))
  | nm :: rest, files, dirs =>
    if dirs.any (fun d => d.headD "" == nm) ||
        files.any (fun f => f.headD "" == nm && decide (2 ≤ f.length)) then
      (Except.error ("IsADirectoryError: temp/" ++ nm), (files, dirs))
    else cleanupGo rest (files.filter (fun f => !(f.headD "" == nm))) dirs

/-- The whole `finally` block of `process_zip`, over the files and
subdirectories present under `temp` when the try-block exits. -/
def cleanupTemp (files dirs : List (List String)) :
    Except String Unit × (List (List String) × List (List String)) :=
  cleanupGo (listdirOf files dirs) files dirs

/- ---------------------------------------------------------------------
   cv_screener.py : process_zip and get_progress
--------------------------------------------------------------------- -/

/-- `CVScreener.process_zip`, including its `finally` block.  Returns the
final screener state together with the batch outcome after the `finally`
block ran: the normal result (the report path), a propagated fatal
exception — an unreadable archive (ExtractionError) or a report failure
(ReportError) — or, overriding either of those, the exception the cleanup
itself raised (a Python `finally` block that raises discards the pending
return value or in-flight exception). -/
def process_zip (sniff : List Nat → Except String String)
    (render : String → Except String (List String))
    (analyze : List String → Except String Json)
    (excelOk : Except String Unit) (role : RoleData) (ts now : String)
    (archive : Except String (List ZipEntry)) (st0 : ScreenerState) :
    ScreenerState × Except String String :=
  let st := { st0 with processed_count := 0, results := [] }
  match archive with
  | Except.error e =>
    -- zipfile.ZipFile raised before anything was extracted, so the
    -- cleanup runs over the still-empty temp directory.
    let final : Except String String :=
      match (cleanupTemp [] []).1 with
      | Except.error ec => Except.error ec
      | Except.ok _ => Except.error e
    (st, final)
  | Except.ok entries =>
    let pdf_files := extract_zip sniff entries "temp"
    let st := { st with total_count := pdf_files.length }
    let st := pdf_files.foldl (processDoc render analyze) st
    let tryResult :=
      (generate_excel_report excelOk role st.results ts now).map WrittenReport.path
    let final : Except String String :=
      match (cleanupTemp (tempFilesAfterRun sniff entries)
          (tempDirsAfterRun entries)).1 with
      | Except.error ec => Except.error ec
      | Except.ok _ => tryResult
    (st, final)

/-- The progress dict. -/
structure Progress where
  processed : Nat
  total : Nat
  status : String
  percentage : Rat

/-- `CVScreener.get_progress`. -/
def get_progress (st : ScreenerState) : Progress :=
  ⟨st.processed_count, st.total_count, st.current_status,
    if st.total_count > 0 then
      (st.processed_count : Rat) / (st.total_count : Rat) * 100
    else 0⟩

/- ---------------------------------------------------------------------
   main.py : the task registry and the background task
--------------------------------------------------------------------- -/

/-- One entry of the `tasks` dict. -/
structure TaskEntry where
  status : String
  progress : Progress
  result_path : Option String
  error : Option String

/-- The zero progress written at submission by `screen_cvs`. -/
def initialProgress : Progress :=
  ⟨0, 0, "Initializing", 0⟩

/-- The registry entry `screen_cvs` creates for a fresh task id. -/
def initialTaskEntry : TaskEntry :=
  ⟨"PROCESSING", initialProgress, none, none⟩

/-- `process_cvs_task`: run `process_zip` on a fresh screener, then update
the registry entry in place: on success set status, progress and
result_path (leaving error); on a fatal exception set status and error
(leaving progress and result_path at their submission-time values). -/
def process_cvs_task (sniff : List Nat → Except String String)
    (render : String → Except String (List String))
    (analyze : List String → Except String Json)
    (excelOk : Except String Unit) (role : RoleData) (ts now : String)
    (archive : Except String (List ZipEntry)) : TaskEntry :=
  let out := process_zip sniff render analyze excelOk role ts now archive
      initScreenerState
  match out.2 with
  | Except.ok path =>
    { initialTaskEntry with
        status := "COMPLETED"
        progress := get_progress out.1
        result_path := some path }
  | Except.error e =>
    { initialTaskEntry with
        status := "FAILED"
        error := some e }

/-- One iteration of the document loop as seen together with the registry:
the loop body mutates only the screener; neither `process_zip` nor
`process_cvs_task` writes to `tasks[task_id]` before the terminal update,
so the registry component is carried through unchanged. -/
def processDocTracked (render : String → Except String (List String))
    (analyze : List String → Except String Json)
    (acc : ScreenerState × TaskEntry) (pdf_path : String) :
    ScreenerState × TaskEntry :=
  (processDoc render analyze acc.1 pdf_path, acc.2)

/-- The sequence of (screener, registry-entry) pairs observable at the
loop boundaries: before the first document, between documents, and after
the last document (before the terminal registry update). -/
def trackedStates (render : String → Except String (List String))
    (analyze : List String → Except String Json) :
    ScreenerState × TaskEntry → List String → List (ScreenerState × TaskEntry)
  | acc, [] => [acc]
  | acc, d :: ds =>
    acc :: trackedStates render analyze (processDocTracked render analyze acc d) ds

/-- The screener states at the loop boundaries of `process_zip`, for a
batch whose validated documents are `pdf_files`: the post-extraction state
(counters reset, `total_count` set) followed by the state after each
document. -/
def processZipStates (render : String → Except String (List String))
    (analyze : List String → Except String Json)
    (pdf_files : List String) : List ScreenerState :=
  (trackedStates render analyze
    ({ initScreenerState with total_count := pdf_files.length }, initialTaskEntry)
    pdf_files).map Prod.fst

/- ---------------------------------------------------------------------
   main.py : the polling and download endpoints
--------------------------------------------------------------------- -/

/-- An `HTTPException`: status code and detail. -/
structure HErr where
  code : Nat
  detail : String

/-- The `TaskStatus` response model. -/
structure TaskStatusResp where
  task_id : String
  status : String
  progress : Progress
  result_path : Option String
  error : Option String

/-- `get_task_status`: the registry is the partial map `tasks`. -/
def get_task_status (tasks : String → Option TaskEntry) (task_id : String) :
    Except HErr TaskStatusResp :=
  match tasks task_id with
  | none => Except.error ⟨404, "Task not found"⟩
  | some t => Except.ok ⟨task_id, t.status, t.progress, t.result_path, t.error⟩

/-- `download_result`: `exists_on_disk` models `os.path.exists` (so it is
false on the empty path).  `not task[result_path]` is the Python falsy
test, true for `None` and for the empty string. -/
def download_result (exists_on_disk : String → Bool)
    (tasks : String → Option TaskEntry) (task_id : String) :
    Except HErr String :=
  match tasks task_id with
  | none => Except.error ⟨404, "Task not found"⟩
  | some t =>
    if t.status != "COMPLETED" then Except.error ⟨400, "Task not completed"⟩
    else
      match t.result_path with
      | none => Except.error ⟨404, "Result file not found"⟩
      | some p =>
        if p == "" || !exists_on_disk p then
          Except.error ⟨404, "Result file not found"⟩
        else Except.ok p

/- ---------------------------------------------------------------------
   Supporting lemmas
--------------------------------------------------------------------- -/

theorem fieldsCheck_shape (fs : List String) (j : Json) :
    fieldsCheck fs j = Except.ok j ∨ ∃ e, fieldsCheck fs j = Except.error e := by
  induction fs with
  | nil => exact Or.inl rfl
  | cons f fs ih =>
    simp only [fieldsCheck]
    cases h : pyContains f j with
    | error e => exact Or.inr ⟨e, rfl⟩
    | ok b =>
      cases b with
      | true => simpa using ih
      | false => exact Or.inr ⟨_, rfl⟩

theorem fieldsCheck_ok_iff (fs : List String) (j : Json) :
    fieldsCheck fs j = Except.ok j ↔ fs.all (fun f => pyMemOk f j) = true := by
  induction fs with
  | nil => simp [fieldsCheck]
  | cons f fs ih =>
    simp only [fieldsCheck, List.all_cons, Bool.and_eq_true]
    cases h : pyContains f j with
    | error e => simp [pyMemOk, h]
    | ok b =>
      cases b with
      | true => simp [pyMemOk, h, ih]
      | false => simp [pyMemOk, h]

theorem parse_response_ok_iff (decoded : Option Json) (j : Json) :
    parse_response decoded = Except.ok j ↔
      decoded = some j ∧ allNineMember j = true := by
  cases decoded with
  | none => simp [parse_response]
  | some v =>
    simp only [parse_response]
    rcases fieldsCheck_shape required_fields v with h | ⟨e, h⟩
    · rw [h]
      constructor
      · rintro ⟨rfl⟩
        exact ⟨rfl, (fieldsCheck_ok_iff _ _).mp h⟩
      · rintro ⟨hv, _⟩
        cases hv
        rfl
    · rw [h]
      constructor
      · rintro ⟨⟩
      · rintro ⟨hv, hall⟩
        cases hv
        rw [(fieldsCheck_ok_iff _ _).mpr hall] at h
        cases h

theorem allNineMember_obj (kvs : List (String × Json)) :
    allNineMember (Json.obj kvs) = hasNineFields (Json.obj kvs) := by
  simp [allNineMember, hasNineFields, pyMemOk, pyContains]

/-- A JSON array holding the nine required field names as its elements. -/
def nineNamesArr : Json := Json.arr (required_fields.map Json.str)

/-- An object carrying all nine required fields (with null values). -/
def goodObj : Json := Json.obj (required_fields.map (fun f => (f, Json.null)))

/-- C3 counterexample: the decoded response `["full_name", ..., "justification"]`
is valid JSON that is not an object containing the nine required fields, yet
`_parse_response` succeeds on it (Python `in` on a list tests element
membership), returning the array itself. -/
theorem C3_counterexample :
    parse_response (some nineNamesArr) = Except.ok nineNamesArr ∧
    hasNineFields nineNamesArr = false :=
  ⟨rfl, rfl⟩

/-- C3 (amended): parsing succeeds exactly on decoded JSON values in which
every one of the nine required field names passes the Python membership
test (for an object this is key presence, but an array with the nine names
as elements or a string with them as substrings also passes), and the
decoded value passes through unchanged; for a JSON object this is presence
of all nine fields regardless of value types; every failure carries the
ParseError message. -/
theorem C3_parse_validation (decoded : Option Json) :
    (∀ j, parse_response decoded = Except.ok j ↔
        decoded = some j ∧ allNineMember j = true) ∧
    (∀ kvs, decoded = some (Json.obj kvs) →
        (parse_response decoded = Except.ok (Json.obj kvs) ↔
          hasNineFields (Json.obj kvs) = true)) ∧
    ((∃ j, parse_response decoded = Except.ok j) ∨
      (∃ m, parse_response decoded =
        Except.error ("Failed to parse API response: " ++ m))) := by
  refine ⟨fun j => parse_response_ok_iff decoded j, ?_, ?_⟩
  · rintro kvs rfl
    rw [parse_response_ok_iff, allNineMember_obj]
    simp
  · cases decoded with
    | none => exact Or.inr ⟨"JSONDecodeError", rfl⟩
    | some v =>
      simp only [parse_response]
      rcases fieldsCheck_shape required_fields v with h | ⟨e, h⟩
      · rw [h]; exact Or.inl ⟨v, rfl⟩
      · rw [h]; exact Or.inr ⟨e, rfl⟩

/-- Witness for C3: a response object carrying all nine fields parses
successfully and passes through unchanged. -/
theorem C3_parse_validation_witness :
    parse_response (some goodObj) = Except.ok goodObj :=
  ((C3_parse_validation (some goodObj)).1 goodObj).mpr ⟨rfl, by decide⟩

/-- C2: the analysis call makes at most 3 attempts; the backoff delays are
1 then 2 time-units (baseDelay 1, doubling); a successful attempt returns
its own result (two failures then a success yield the third response with
delays [1, 2]); three failures re-raise the third failure unmodified. -/
theorem C2_retry_policy {R : Type} (attempts : Nat → Except String R) :
    (call_gemini_api attempts).attemptsMade ≤ 3 ∧
    (∀ r, attempts 0 = Except.ok r →
      call_gemini_api attempts = ⟨Except.ok r, [], 1⟩) ∧
    (∀ e0 r, attempts 0 = Except.error e0 → attempts 1 = Except.ok r →
      call_gemini_api attempts = ⟨Except.ok r, [1], 2⟩) ∧
    (∀ e0 e1 r, attempts 0 = Except.error e0 → attempts 1 = Except.error e1 →
      attempts 2 = Except.ok r →
      call_gemini_api attempts = ⟨Except.ok r, [1, 2], 3⟩) ∧
    (∀ e0 e1 e2, attempts 0 = Except.error e0 → attempts 1 = Except.error e1 →
      attempts 2 = Except.error e2 →
      call_gemini_api attempts = ⟨Except.error e2, [1, 2], 3⟩) := by
  refine ⟨?_, ?_, ?_, ?_, ?_⟩
  · cases h0 : attempts 0 with
    | ok r => simp [call_gemini_api, max_retries, retryGo, h0]
    | error e0 =>
      cases h1 : attempts 1 with
      | ok r => simp [call_gemini_api, max_retries, retryGo, h0, h1]
      | error e1 =>
        cases h2 : attempts 2 with
        | ok r => simp [call_gemini_api, max_retries, retryGo, h0, h1, h2]
        | error e2 => simp [call_gemini_api, max_retries, retryGo, h0, h1, h2]
  · intro r h0
    simp [call_gemini_api, max_retries, retryGo, h0]
  · intro e0 r h0 h1
    simp [call_gemini_api, max_retries, retryGo, retry_delay, h0, h1]
  · intro e0 e1 r h0 h1 h2
    simp [call_gemini_api, max_retries, retryGo, retry_delay, h0, h1, h2]
  · intro e0 e1 e2 h0 h1 h2
    simp [call_gemini_api, max_retries, retryGo, retry_delay, h0, h1, h2]

/-- A call that fails on its first two attempts and succeeds on the third. -/
def attemptsEx : Nat → Except String Nat :=
  fun i => if i == 0 then Except.error "timeout A"
    else if i == 1 then Except.error "timeout B"
    else Except.ok 42

/-- Witness for C2: two failures then a success give the third response
after backoff delays of 1 then 2 time-units. -/
theorem C2_retry_policy_witness :
    call_gemini_api attemptsEx = ⟨Except.ok 42, [1, 2], 3⟩ :=
  (C2_retry_policy attemptsEx).2.2.2.1 "timeout A" "timeout B" 42 rfl rfl rfl

theorem extractLoop_eq (sniff : List Nat → Except String String)
    (path : String) (entries : List ZipEntry) (acc : List String) :
    extractLoop sniff path entries acc =
      acc ++ (entries.filter (fun en =>
          pyEndsWith (pyLower en.name) ".pdf" && is_valid_pdf sniff en.content)).map
        (fun en => path ++ "/" ++ en.name) := by
  induction entries generalizing acc with
  | nil => simp [extractLoop]
  | cons en ens ih =>
    simp only [extractLoop]
    cases hE : pyEndsWith (pyLower en.name) ".pdf" with
    | false => simp [hE, ih]
    | true =>
      cases hV : is_valid_pdf sniff en.content with
      | false => simp [hE, hV, ih]
      | true => simp [hE, hV, ih]

theorem processDoc_eq (render : String → Except String (List String))
    (analyze : List String → Except String Json)
    (st : ScreenerState) (d : String) :
    processDoc render analyze st d =
      ⟨st.results ++ [rowFor render analyze d], st.processed_count + 1,
        st.total_count, "Processing " ++ basename d⟩ := by
  cases hr : render d with
  | error e => simp [processDoc, processSingleCv, rowFor, hr]
  | ok imgs =>
    cases ha : analyze imgs with
    | error e => simp [processDoc, processSingleCv, rowFor, hr, ha]
    | ok analysis => simp [processDoc, processSingleCv, rowFor, hr, ha]


theorem foldl_processDoc_results (render : String → Except String (List String))
    (analyze : List String → Except String Json)
    (ds : List String) (st : ScreenerState) :
    (ds.foldl (processDoc render analyze) st).results =
      st.results ++ ds.map (rowFor render analyze) := by
  induction ds generalizing st with
  | nil => simp
  | cons d ds ih =>
    rw [List.foldl_cons, processDoc_eq, ih]
    simp

theorem foldl_processDoc_processed (render : String → Except String (List String))
    (analyze : List String → Except String Json)
    (ds : List String) (st : ScreenerState) :
    (ds.foldl (processDoc render analyze) st).processed_count =
      st.processed_count + ds.length := by
  induction ds generalizing st with
  | nil => simp
  | cons d ds ih =>
    rw [List.foldl_cons, processDoc_eq, ih]
    show st.processed_count + 1 + ds.length = st.processed_count + (d :: ds).length
    simp only [List.length_cons]
    omega

theorem foldl_processDoc_total (render : String → Except String (List String))
    (analyze : List String → Except String Json)
    (ds : List String) (st : ScreenerState) :
    (ds.foldl (processDoc render analyze) st).total_count = st.total_count := by
  induction ds generalizing st with
  | nil => simp
  | cons d ds ih =>
    rw [List.foldl_cons, processDoc_eq, ih]

theorem trackedStates_snd (render : String → Except String (List String))
    (analyze : List String → Except String Json)
    (ds : List String) (st : ScreenerState) (reg : TaskEntry) :
    ∀ p ∈ trackedStates render analyze (st, reg) ds, p.2 = reg := by
  induction ds generalizing st with
  | nil =>
    intro p hp
    simp only [trackedStates, List.mem_singleton] at hp
    rw [hp]
  | cons d ds ih =>
    intro p hp
    simp only [trackedStates, List.mem_cons] at hp
    rcases hp with rfl | hp
    · rfl
    · exact ih (processDoc render analyze st d) p (by simpa [processDocTracked] using hp)

theorem trackedStates_inv (render : String → Except String (List String))
    (analyze : List String → Except String Json)
    (ds : List String) (st : ScreenerState) (reg : TaskEntry)
    (h : st.processed_count + ds.length ≤ st.total_count) :
    ∀ p ∈ trackedStates render analyze (st, reg) ds,
      p.1.processed_count ≤ p.1.total_count ∧
      p.1.total_count = st.total_count := by
  induction ds generalizing st with
  | nil =>
    intro p hp
    simp only [trackedStates, List.mem_singleton] at hp
    subst hp
    exact ⟨by simpa using h, rfl⟩
  | cons d ds ih =>
    intro p hp
    simp only [trackedStates, List.mem_cons] at hp
    simp only [List.length_cons] at h
    rcases hp with rfl | hp
    · refine ⟨?_, rfl⟩
      show st.processed_count ≤ st.total_count
      omega
    · have h2 : (processDoc render analyze st d).processed_count + ds.length ≤
          (processDoc render analyze st d).total_count := by
        rw [processDoc_eq]
        show st.processed_count + 1 + ds.length ≤ st.total_count
        omega
      have h3 := ih (processDoc render analyze st d) h2 p
        (by simpa [processDocTracked] using hp)
      refine ⟨h3.1, ?_⟩
      rw [h3.2, processDoc_eq]

theorem trackedStates_concat (render : String → Except String (List String))
    (analyze : List String → Except String Json)
    (ds : List String) (acc : ScreenerState × TaskEntry) :
    ∃ front, trackedStates render analyze acc ds =
      front ++ [(ds.foldl (processDoc render analyze) acc.1, acc.2)] := by
  induction ds generalizing acc with
  | nil => exact ⟨[], by simp [trackedStates]⟩
  | cons d ds ih =>
    rcases ih (processDocTracked render analyze acc d) with ⟨front, hf⟩
    refine ⟨acc :: front, ?_⟩
    have hf2 : trackedStates render analyze (processDoc render analyze acc.1 d, acc.2) ds =
        front ++ [(List.foldl (processDoc render analyze)
          (processDoc render analyze acc.1 d) ds, acc.2)] := hf
    simp [trackedStates, processDocTracked, hf2]

theorem trackedStates_getLast (render : String → Except String (List String))
    (analyze : List String → Except String Json)
    (ds : List String) (st : ScreenerState) (reg : TaskEntry) :
    (trackedStates render analyze (st, reg) ds).getLast? =
      some (ds.foldl (processDoc render analyze) st, reg) := by
  rcases trackedStates_concat render analyze ds (st, reg) with ⟨front, hf⟩
  rw [hf, List.getLast?_concat]

theorem process_zip_fst_ok (sniff : List Nat → Except String String)
    (render : String → Except String (List String))
    (analyze : List String → Except String Json)
    (excelOk : Except String Unit) (role : RoleData) (ts now : String)
    (entries : List ZipEntry) :
    (process_zip sniff render analyze excelOk role ts now (Except.ok entries)
        initScreenerState).1 =
      (extract_zip sniff entries "temp").foldl (processDoc render analyze)
        { initScreenerState with
            total_count := (extract_zip sniff entries "temp").length } := rfl

theorem process_zip_snd_ok (sniff : List Nat → Except String String)
    (render : String → Except String (List String))
    (analyze : List String → Except String Json)
    (excelOk : Except String Unit) (role : RoleData) (ts now : String)
    (entries : List ZipEntry)
    (hclean : (cleanupTemp (tempFilesAfterRun sniff entries)
      (tempDirsAfterRun entries)).1 = Except.ok ()) :
    (process_zip sniff render analyze excelOk role ts now (Except.ok entries)
        initScreenerState).2 =
      (generate_excel_report excelOk role
        ((extract_zip sniff entries "temp").foldl (processDoc render analyze)
          { initScreenerState with
              total_count := (extract_zip sniff entries "temp").length }).results
        ts now).map WrittenReport.path := by
  simp only [process_zip]
  rw [hclean]
  rfl

theorem process_zip_snd_excel_error (sniff : List Nat → Except String String)
    (render : String → Except String (List String))
    (analyze : List String → Except String Json)
    (role : RoleData) (ts now : String) (entries : List ZipEntry) (e : String) :
    ∃ e2, (process_zip sniff render analyze (Except.error e) role ts now
        (Except.ok entries) initScreenerState).2 = Except.error e2 := by
  cases hc : (cleanupTemp (tempFilesAfterRun sniff entries)
      (tempDirsAfterRun entries)).1 with
  | error ec =>
    refine ⟨ec, ?_⟩
    simp only [process_zip]
    rw [hc]
  | ok u =>
    refine ⟨"Failed to generate Excel report: " ++ e, ?_⟩
    cases u
    simp only [process_zip]
    rw [hc]
    rfl

theorem rowFor_of_fail (render : String → Except String (List String))
    (analyze : List String → Except String Json) (p e : String)
    (hfail : render p = Except.error e ∨
      ∃ imgs, render p = Except.ok imgs ∧ analyze imgs = Except.error e) :
    rowFor render analyze p = CVOutcome.failure (basename p) e := by
  rcases hfail with h | ⟨imgs, h1, h2⟩
  · simp [rowFor, h]
  · simp [rowFor, h1, h2]

theorem rowFor_filename (render : String → Except String (List String))
    (analyze : List String → Except String Json) (p : String) :
    (rowFor render analyze p).filename = basename p := by
  cases hr : render p with
  | error e => simp [rowFor, hr, CVOutcome.filename]
  | ok imgs =>
    cases ha : analyze imgs with
    | error e => simp [rowFor, hr, ha, CVOutcome.filename]
    | ok analysis => simp [rowFor, hr, ha, CVOutcome.filename]

/-- C4: throughout a batch run `processed_count` never exceeds
`total_count` and `total_count` stays the validated-document count set at
extraction; the last loop-boundary state is exactly the final state of
`process_zip`; after the run `processed_count = total_count =` the number
of validated documents extracted from the archive, and the result list
holds exactly one outcome (the row for that document) per validated
document, in extraction order, each carrying that document's filename. -/
theorem C4_count_invariants (sniff : List Nat → Except String String)
    (render : String → Except String (List String))
    (analyze : List String → Except String Json)
    (excelOk : Except String Unit) (role : RoleData) (ts now : String)
    (entries : List ZipEntry) :
    (∀ s ∈ processZipStates render analyze (extract_zip sniff entries "temp"),
        s.processed_count ≤ s.total_count ∧
        s.total_count = (extract_zip sniff entries "temp").length) ∧
    (processZipStates render analyze (extract_zip sniff entries "temp")).getLast? =
      some (process_zip sniff render analyze excelOk role ts now
        (Except.ok entries) initScreenerState).1 ∧
    (process_zip sniff render analyze excelOk role ts now (Except.ok entries)
        initScreenerState).1.processed_count =
      (extract_zip sniff entries "temp").length ∧
    (process_zip sniff render analyze excelOk role ts now (Except.ok entries)
        initScreenerState).1.total_count =
      (extract_zip sniff entries "temp").length ∧
    (process_zip sniff render analyze excelOk role ts now (Except.ok entries)
        initScreenerState).1.results =
      (extract_zip sniff entries "temp").map (rowFor render analyze) ∧
    (∀ i : Nat, i < (extract_zip sniff entries "temp").length →
      ((process_zip sniff render analyze excelOk role ts now (Except.ok entries)
          initScreenerState).1.results)[i]?.map CVOutcome.filename =
        ((extract_zip sniff entries "temp")[i]?).map basename) := by
  refine ⟨?_, ?_, ?_, ?_, ?_, ?_⟩
  · intro s hs
    simp only [processZipStates, List.mem_map] at hs
    rcases hs with ⟨q, hq, rfl⟩
    exact trackedStates_inv render analyze (extract_zip sniff entries "temp")
      { initScreenerState with total_count := (extract_zip sniff entries "temp").length }
      initialTaskEntry (by simp [initScreenerState]) q hq
  · rw [processZipStates, List.getLast?_map, trackedStates_getLast, process_zip_fst_ok]
    rfl
  · rw [process_zip_fst_ok, foldl_processDoc_processed]
    simp [initScreenerState]
  · rw [process_zip_fst_ok, foldl_processDoc_total]
  · rw [process_zip_fst_ok, foldl_processDoc_results]
    rfl
  · intro i hi
    rw [process_zip_fst_ok, foldl_processDoc_results]
    show ((extract_zip sniff entries "temp").map (rowFor render analyze))[i]?.map
        CVOutcome.filename = _
    rw [List.getElem?_map]
    cases hx : (extract_zip sniff entries "temp")[i]? with
    | none => rfl
    | some p => simp [rowFor_filename]

/-- C1 (amended): a render or analysis failure of one document does not
abort the per-document loop: the result row at that document's position is
a Failure outcome carrying the document's filename and the triggering
error's message, and `processed_count` still reaches the full document
count; provided the final temp-directory cleanup does not itself raise
(`hclean`; it raises when an extracted entry name contains a directory
component), the task still ends COMPLETED with the report path, not
FAILED. -/
theorem C1_per_doc_error_isolated (sniff : List Nat → Except String String)
    (render : String → Except String (List String))
    (analyze : List String → Except String Json)
    (role : RoleData) (ts now : String) (entries : List ZipEntry)
    (i : Nat) (p e : String)
    (hp : (extract_zip sniff entries "temp")[i]? = some p)
    (hfail : render p = Except.error e ∨
      ∃ imgs, render p = Except.ok imgs ∧ analyze imgs = Except.error e)
    (hclean : (cleanupTemp (tempFilesAfterRun sniff entries)
      (tempDirsAfterRun entries)).1 = Except.ok ()) :
    ((process_zip sniff render analyze (Except.ok ()) role ts now
        (Except.ok entries) initScreenerState).1.results)[i]? =
      some (CVOutcome.failure (basename p) e) ∧
    (process_zip sniff render analyze (Except.ok ()) role ts now
        (Except.ok entries) initScreenerState).1.processed_count =
      (extract_zip sniff entries "temp").length ∧
    process_cvs_task sniff render analyze (Except.ok ()) role ts now
        (Except.ok entries) =
      { status := "COMPLETED",
        progress := get_progress (process_zip sniff render analyze (Except.ok ())
          role ts now (Except.ok entries) initScreenerState).1,
        result_path := some (output_path_for ts),
        error := none } := by
  refine ⟨?_, ?_, ?_⟩
  · rw [process_zip_fst_ok, foldl_processDoc_results]
    show ((extract_zip sniff entries "temp").map (rowFor render analyze))[i]? = _
    rw [List.getElem?_map, hp]
    simp [rowFor_of_fail render analyze p e hfail]
  · rw [process_zip_fst_ok, foldl_processDoc_processed]
    simp [initScreenerState]
  · have hs := process_zip_snd_ok sniff render analyze (Except.ok ()) role ts now
      entries hclean
    simp only [process_cvs_task]
    rw [hs]
    rfl

/-- C5 (amended): extraction keeps exactly the entries whose name
(lower-cased) ends in `.pdf` and whose materialized bytes sniff as
`application/pdf`, in archive order; every other entry is discarded
silently and contributes neither to `total_count` nor a result row; an
unreadable archive propagates its error out of `process_zip` (fatal
ExtractionError); and provided the final temp-directory cleanup does not
itself raise, the batch returns the report path whatever the validated
list — in particular an empty validated list is then not an error.  (The
proviso is needed: extracting a `.pdf`-named entry inside a subdirectory
leaves a directory that makes the cleanup raise even when the entry is
sniff-rejected and the validated list empty.) -/
theorem C5_extraction_validation (sniff : List Nat → Except String String)
    (render : String → Except String (List String))
    (analyze : List String → Except String Json)
    (role : RoleData) (ts now : String)
    (entries : List ZipEntry) (path e : String) :
    extract_zip sniff entries path =
      (entries.filter (fun en => pyEndsWith (pyLower en.name) ".pdf" &&
        is_valid_pdf sniff en.content)).map (fun en => path ++ "/" ++ en.name) ∧
    extract_zip_of_archive sniff (Except.error e) path = Except.error e ∧
    (process_zip sniff render analyze (Except.ok ()) role ts now (Except.error e)
        initScreenerState).2 = Except.error e ∧
    (process_zip sniff render analyze (Except.ok ()) role ts now (Except.ok entries)
        initScreenerState).1.total_count =
      (entries.filter (fun en => pyEndsWith (pyLower en.name) ".pdf" &&
        is_valid_pdf sniff en.content)).length ∧
    (process_zip sniff render analyze (Except.ok ()) role ts now (Except.ok entries)
        initScreenerState).1.results.length =
      (entries.filter (fun en => pyEndsWith (pyLower en.name) ".pdf" &&
        is_valid_pdf sniff en.content)).length ∧
    ((cleanupTemp (tempFilesAfterRun sniff entries)
        (tempDirsAfterRun entries)).1 = Except.ok () →
      (process_zip sniff render analyze (Except.ok ()) role ts now
          (Except.ok entries) initScreenerState).2 =
        Except.ok (output_path_for ts)) := by
  refine ⟨?_, rfl, rfl, ?_, ?_, ?_⟩
  · rw [extract_zip, extractLoop_eq]
    simp
  · rw [process_zip_fst_ok, foldl_processDoc_total]
    show (extract_zip sniff entries "temp").length = _
    rw [extract_zip, extractLoop_eq]
    simp
  · rw [process_zip_fst_ok, foldl_processDoc_results]
    show ((extract_zip sniff entries "temp").map (rowFor render analyze)).length = _
    rw [List.length_map, extract_zip, extractLoop_eq]
    simp
  · intro hclean
    rw [process_zip_snd_ok sniff render analyze (Except.ok ()) role ts now
      entries hclean]
    rfl

/- ---------------------------------------------------------------------
   Concrete example data for the witnesses
--------------------------------------------------------------------- -/

/-- A content sniffer that classifies everything as a PDF. -/
def sniffPdf : List Nat → Except String String :=
  fun _ => Except.ok "application/pdf"

/-- A renderer that always raises (the wrapped `_pdf_to_images` message). -/
def renderFail : String → Except String (List String) :=
  fun _ => Except.error "Failed to convert PDF to images: boom"

/-- An analysis oracle that returns a well-formed nine-field object. -/
def analyzeOk : List String → Except String Json :=
  fun _ => Except.ok goodObj

def roleEx : RoleData := ⟨"Engineer", ["Python"], ["Lean"]⟩

def entryEx : ZipEntry := ⟨"cv1.pdf", [37, 80, 68, 70]⟩

/-- A valid PDF entry inside a subdirectory of the archive. -/
def nestedEntryEx : ZipEntry := ⟨"docs/cv1.pdf", [37, 80, 68, 70]⟩

/-- A content sniffer that classifies everything as plain text. -/
def sniffText : List Nat → Except String String :=
  fun _ => Except.ok "text/plain"

/-- A renderer that always succeeds with one page image. -/
def renderOkEx : String → Except String (List String) :=
  fun _ => Except.ok ["img"]

/-- Witness for C1: one valid document whose render step fails; the batch
records the Failure row with its filename and message, and the task still
ends COMPLETED. -/
theorem C1_per_doc_error_isolated_witness :
    ((process_zip sniffPdf renderFail analyzeOk (Except.ok ()) roleEx "T" "N"
        (Except.ok [entryEx]) initScreenerState).1.results)[0]? =
      some (CVOutcome.failure "cv1.pdf" "Failed to convert PDF to images: boom") ∧
    (process_cvs_task sniffPdf renderFail analyzeOk (Except.ok ()) roleEx "T" "N"
        (Except.ok [entryEx])).status = "COMPLETED" := by
  have h := C1_per_doc_error_isolated sniffPdf renderFail analyzeOk roleEx "T" "N"
    [entryEx] 0 "temp/cv1.pdf" "Failed to convert PDF to images: boom" rfl
    (Or.inl rfl) rfl
  exact ⟨h.1, by rw [h.2.2]⟩

/-- C1 counterexample: the single validated document docs/cv1.pdf fails
its render step, the Failure row is recorded — yet the task ends FAILED,
not COMPLETED: the finally-block cleanup raises IsADirectoryError on the
subdirectory the extraction created, refuting the claim that the batch
always still ends COMPLETED. -/
theorem C1_counterexample :
    renderFail "temp/docs/cv1.pdf" =
      Except.error "Failed to convert PDF to images: boom" ∧
    ((process_zip sniffPdf renderFail analyzeOk (Except.ok ()) roleEx "T" "N"
        (Except.ok [nestedEntryEx]) initScreenerState).1.results)[0]? =
      some (CVOutcome.failure "cv1.pdf" "Failed to convert PDF to images: boom") ∧
    (process_cvs_task sniffPdf renderFail analyzeOk (Except.ok ()) roleEx "T" "N"
        (Except.ok [nestedEntryEx])).status = "FAILED" :=
  ⟨rfl, rfl, rfl⟩

/-- C5 counterexample: an archive whose only entry is docs/a.pdf failing
content sniffing has an empty validated list (totalCount 0, no result
rows), yet the batch is an error: extraction left the directory temp/docs
behind, and the final cleanup raises IsADirectoryError on it. -/
theorem C5_counterexample :
    extract_zip sniffText [⟨"docs/a.pdf", [1]⟩] "temp" = [] ∧
    (process_zip sniffText renderFail analyzeOk (Except.ok ()) roleEx "T" "N"
        (Except.ok [⟨"docs/a.pdf", [1]⟩]) initScreenerState).1.total_count = 0 ∧
    (process_zip sniffText renderFail analyzeOk (Except.ok ()) roleEx "T" "N"
        (Except.ok [⟨"docs/a.pdf", [1]⟩]) initScreenerState).2 =
      Except.error "IsADirectoryError: temp/docs" :=
  ⟨rfl, rfl, rfl⟩

/-- Witness for C5: a batch over an archive with no entries at all (empty
validated list, clean temp directory) still returns the report path. -/
theorem C5_extraction_validation_witness :
    (process_zip sniffPdf renderFail analyzeOk (Except.ok ()) roleEx "T" "N"
        (Except.ok []) initScreenerState).2 = Except.ok (output_path_for "T") :=
  (C5_extraction_validation sniffPdf renderFail analyzeOk roleEx "T" "N" []
    "temp" "x").2.2.2.2.2 rfl

/-- Witness for C4: in a batch with one valid document and one non-PDF
entry, the result row of document 0 carries its filename. -/
theorem C4_count_invariants_witness :
    ((process_zip sniffPdf renderFail analyzeOk (Except.ok ()) roleEx "T" "N"
        (Except.ok [entryEx, ⟨"notes.txt", [1]⟩]) initScreenerState).1.results)[0]?.map
      CVOutcome.filename =
      ((extract_zip sniffPdf [entryEx, ⟨"notes.txt", [1]⟩] "temp")[0]?).map basename :=
  (C4_count_invariants sniffPdf renderFail analyzeOk (Except.ok ()) roleEx "T" "N"
    [entryEx, ⟨"notes.txt", [1]⟩]).2.2.2.2.2 0 (by decide)

/- ---------------------------------------------------------------------
   C7 : endpoint error behaviour
--------------------------------------------------------------------- -/

/-- C7: `get_task_status` on an unknown task id fails NotFound (404);
`download_result` fails NotFound on an unknown id, InvalidState (400) when
the status is not COMPLETED, NotFound when COMPLETED but the artifact path
is absent or its file missing on disk, and returns the path when COMPLETED
and present (`hfs` records that `os.path.exists` is false on the empty
path). -/
theorem C7_status_download_errors (tasks : String → Option TaskEntry)
    (fs : String → Bool) (tid : String) (hfs : fs "" = false) :
    (tasks tid = none →
      get_task_status tasks tid = Except.error ⟨404, "Task not found"⟩ ∧
      download_result fs tasks tid = Except.error ⟨404, "Task not found"⟩) ∧
    (∀ t, tasks tid = some t → t.status ≠ "COMPLETED" →
      download_result fs tasks tid = Except.error ⟨400, "Task not completed"⟩) ∧
    (∀ t, tasks tid = some t → t.status = "COMPLETED" → t.result_path = none →
      download_result fs tasks tid = Except.error ⟨404, "Result file not found"⟩) ∧
    (∀ t p, tasks tid = some t → t.status = "COMPLETED" → t.result_path = some p →
      fs p = false →
      download_result fs tasks tid = Except.error ⟨404, "Result file not found"⟩) ∧
    (∀ t p, tasks tid = some t → t.status = "COMPLETED" → t.result_path = some p →
      fs p = true → download_result fs tasks tid = Except.ok p) := by
  refine ⟨?_, ?_, ?_, ?_, ?_⟩
  · intro h
    exact ⟨by simp [get_task_status, h], by simp [download_result, h]⟩
  · intro t h hs
    simp [download_result, h, hs]
  · intro t h hs hr
    simp [download_result, h, hs, hr]
  · intro t p h hs hr hfp
    simp [download_result, h, hs, hr, hfp]
  · intro t p h hs hr hfp
    have hpne : p ≠ "" := by
      intro hq
      rw [hq, hfs] at hfp
      cases hfp
    have hb : (p == "") = false := beq_eq_false_iff_ne.mpr hpne
    simp [download_result, h, hs, hr, hfp, hb]

/-- A completed task entry whose artifact exists on disk. -/
def taskDoneEx : TaskEntry :=
  ⟨"COMPLETED", initialProgress, some "results/r.xlsx", none⟩

def tasksEx : String → Option TaskEntry :=
  fun tid => if tid == "t1" then some taskDoneEx else none

def fsEx : String → Bool := fun p => p == "results/r.xlsx"

/-- Witness for C7: the completed task with its artifact on disk downloads
successfully. -/
theorem C7_status_download_errors_witness :
    download_result fsEx tasksEx "t1" = Except.ok "results/r.xlsx" :=
  (C7_status_download_errors tasksEx fsEx "t1" rfl).2.2.2.2 taskDoneEx
    "results/r.xlsx" rfl rfl rfl rfl

/- ---------------------------------------------------------------------
   C8 : the report builder
--------------------------------------------------------------------- -/

theorem output_path_for_inj (ts1 ts2 : String)
    (h : output_path_for ts1 = output_path_for ts2) : ts1 = ts2 := by
  have hd := congrArg String.data h
  simp only [output_path_for, String.data_append] at hd
  have h1 := List.append_cancel_right hd
  have h2 := List.append_cancel_left h1
  cases ts1 with
  | mk l1 =>
    cases ts2 with
    | mk l2 =>
      exact congrArg String.mk (by simpa using h2)

/-- C8: a successful report is written under the results directory at the
timestamp-suffixed path `results/cv_analysis_<ts>.xlsx`, as a two-sheet
workbook with sheets named Metadata and Analysis Results; distinct
timestamps give distinct paths; any serialization failure becomes the
ReportError message, and a report failure is fatal: the task ends
FAILED. -/
theorem C8_report_builder (role : RoleData) (results : List CVOutcome)
    (ts now e : String) (sniff : List Nat → Except String String)
    (render : String → Except String (List String))
    (analyze : List String → Except String Json) (entries : List ZipEntry) :
    (∀ r, generate_excel_report (Except.ok ()) role results ts now = Except.ok r →
      r.path = "results/cv_analysis_" ++ ts ++ ".xlsx" ∧
      r.sheet_names = ["Metadata", "Analysis Results"]) ∧
    (∀ ts2, output_path_for ts = output_path_for ts2 → ts = ts2) ∧
    generate_excel_report (Except.error e) role results ts now =
      Except.error ("Failed to generate Excel report: " ++ e) ∧
    (process_cvs_task sniff render analyze (Except.error e) role ts now
        (Except.ok entries)).status = "FAILED" := by
  refine ⟨?_, fun ts2 => output_path_for_inj ts ts2, rfl, ?_⟩
  case refine_2 =>
    rcases process_zip_snd_excel_error sniff render analyze role ts now entries e
      with ⟨e2, h2⟩
    rcases hz : process_zip sniff render analyze (Except.error e) role ts now
        (Except.ok entries) initScreenerState with ⟨stF, res⟩
    rw [hz] at h2
    have hres : res = Except.error e2 := h2
    subst hres
    simp [process_cvs_task, hz]
  intro r hr
  have : r = ⟨output_path_for ts, ["Metadata", "Analysis Results"],
      buildMetadata role results now, results⟩ := by
    cases hr
    rfl
  rw [this]
  exact ⟨rfl, rfl⟩

/-- The report the witness batch writes. -/
def reportEx : WrittenReport :=
  ⟨output_path_for "20240101_120000", ["Metadata", "Analysis Results"],
    buildMetadata roleEx [] "2024-01-01 12:00:00", []⟩

/-- Witness for C8: a concrete successful report has the pattern path and
the two sheet names. -/
theorem C8_report_builder_witness :
    reportEx.path = "results/cv_analysis_" ++ "20240101_120000" ++ ".xlsx" ∧
    reportEx.sheet_names = ["Metadata", "Analysis Results"] :=
  (C8_report_builder roleEx [] "20240101_120000" "2024-01-01 12:00:00" "boom"
    sniffPdf renderFail analyzeOk []).1 reportEx rfl

/- ---------------------------------------------------------------------
   C10 : the frame of the terminal FAILED update
--------------------------------------------------------------------- -/

/-- C10: a batch-fatal failure updates only the status and error fields of
the registry entry: the terminal entry keeps the submission-time zero
progress and an absent result path, whatever the fatal error was and
however far processing had advanced. -/
theorem C10_fatal_update_frame (sniff : List Nat → Except String String)
    (render : String → Except String (List String))
    (analyze : List String → Except String Json)
    (excelOk : Except String Unit) (role : RoleData) (ts now : String)
    (archive : Except String (List ZipEntry)) (e : String)
    (h : (process_zip sniff render analyze excelOk role ts now archive
        initScreenerState).2 = Except.error e) :
    process_cvs_task sniff render analyze excelOk role ts now archive =
      ⟨"FAILED", initialProgress, none, some e⟩ := by
  rcases hz : process_zip sniff render analyze excelOk role ts now archive
      initScreenerState with ⟨stF, res⟩
  rw [hz] at h
  have hres : res = Except.error e := h
  subst hres
  simp [process_cvs_task, hz, initialTaskEntry]

/-- Witness for C10: an unreadable archive (ExtractionError) ends the task
FAILED with the error recorded, zero progress and no result path. -/
theorem C10_fatal_update_frame_witness :
    process_cvs_task sniffPdf renderFail analyzeOk (Except.ok ()) roleEx "T" "N"
        (Except.error "File is not a zip file") =
      ⟨"FAILED", initialProgress, none, some "File is not a zip file"⟩ :=
  C10_fatal_update_frame sniffPdf renderFail analyzeOk (Except.ok ()) roleEx "T" "N"
    (Except.error "File is not a zip file") "File is not a zip file" rfl

/- ---------------------------------------------------------------------
   C6 : the registry during a run
--------------------------------------------------------------------- -/

/-- The loop-boundary (screener, registry) pairs of a one-document batch
whose document fails to render. -/
def trackedEx : List (ScreenerState × TaskEntry) :=
  trackedStates renderFail analyzeOk
    ({ initScreenerState with total_count := 1 }, initialTaskEntry) ["temp/cv1.pdf"]

/-- C6 counterexample: after the only document of a one-document batch has
completed (the screener's processed_count is 1), the registry entry is
still the submission-time entry, so get_task_status still reports
PROCESSING with processed = 0 and percentage 0: the task's BatchProgress
was not mutated when the document completed. -/
theorem C6_counterexample :
    (trackedEx.getD 1 (initScreenerState, initialTaskEntry)).1.processed_count = 1 ∧
    (trackedEx.getD 1 (initScreenerState, initialTaskEntry)).2 = initialTaskEntry ∧
    get_task_status
        (fun tid => if tid == "t1" then
          some (trackedEx.getD 1 (initScreenerState, initialTaskEntry)).2 else none)
        "t1" =
      Except.ok ⟨"t1", "PROCESSING", ⟨0, 0, "Initializing", 0⟩, none, none⟩ :=
  ⟨rfl, rfl, rfl⟩

/-- C6 (amended): the registry entry is created at submission with status
PROCESSING and zero progress, but the orchestrator does not update it
while the batch runs: at every loop boundary the registry entry still
equals the submission entry, so get_task_status observes PROCESSING with
the initial zero progress even though the screener's own counters advance;
the entry's progress is first written by the terminal update: whenever the
batch run returns a report path, the terminal update sets COMPLETED with
the final progress and that path. -/
theorem C6_registry_updated_only_terminally (sniff : List Nat → Except String String)
    (render : String → Except String (List String))
    (analyze : List String → Except String Json)
    (role : RoleData) (ts now : String) (entries : List ZipEntry) (tid : String) :
    initialTaskEntry = ⟨"PROCESSING", ⟨0, 0, "Initializing", 0⟩, none, none⟩ ∧
    (∀ q ∈ trackedStates render analyze
        ({ initScreenerState with
            total_count := (extract_zip sniff entries "temp").length },
          initialTaskEntry) (extract_zip sniff entries "temp"),
      q.2 = initialTaskEntry ∧
      get_task_status (fun x => if x == tid then some q.2 else none) tid =
        Except.ok ⟨tid, "PROCESSING", initialProgress, none, none⟩) ∧
    (∀ path, (process_zip sniff render analyze (Except.ok ()) role ts now
        (Except.ok entries) initScreenerState).2 = Except.ok path →
      process_cvs_task sniff render analyze (Except.ok ()) role ts now
          (Except.ok entries) =
        { status := "COMPLETED",
          progress := get_progress (process_zip sniff render analyze (Except.ok ())
            role ts now (Except.ok entries) initScreenerState).1,
          result_path := some path,
          error := none }) := by
  refine ⟨rfl, ?_, ?_⟩
  case refine_2 =>
    intro path hpath
    simp only [process_cvs_task]
    rw [hpath]
    rfl
  intro q hq
  have h2 := trackedStates_snd render analyze (extract_zip sniff entries "temp")
    { initScreenerState with
        total_count := (extract_zip sniff entries "temp").length }
    initialTaskEntry q hq
  refine ⟨h2, ?_⟩
  rw [h2]
  simp [get_task_status, initialTaskEntry]

/-- Witness for C6 (amended): in a concrete one-document batch, the first
loop-boundary registry entry equals the submission entry and polls as
PROCESSING with zero progress. -/
theorem C6_registry_updated_only_terminally_witness :
    (({ initScreenerState with
        total_count := (extract_zip sniffPdf [entryEx] "temp").length },
      initialTaskEntry) : ScreenerState × TaskEntry).2 = initialTaskEntry ∧
    get_task_status (fun x => if x == "t1" then
        some (({ initScreenerState with
          total_count := (extract_zip sniffPdf [entryEx] "temp").length },
          initialTaskEntry) : ScreenerState × TaskEntry).2 else none) "t1" =
      Except.ok ⟨"t1", "PROCESSING", initialProgress, none, none⟩ ∧
    (process_cvs_task sniffPdf renderFail analyzeOk (Except.ok ()) roleEx "T" "N"
        (Except.ok [entryEx])).status = "COMPLETED" := by
  have h := C6_registry_updated_only_terminally sniffPdf renderFail analyzeOk
    roleEx "T" "N" [entryEx] "t1"
  have h2 := h.2.1
    ({ initScreenerState with
        total_count := (extract_zip sniffPdf [entryEx] "temp").length },
      initialTaskEntry)
    (List.mem_cons_self _ _)
  have h3 := h.2.2 (output_path_for "T") rfl
  exact ⟨h2.1, h2.2, by rw [h3]⟩

/- ---------------------------------------------------------------------
   C9 : the cleanup at the failing input
--------------------------------------------------------------------- -/

/-- C9, evaluated at the failing input: the archive holds the single entry
docs/cv1.pdf, a valid PDF inside a subdirectory, so when the try-block of
process_zip exits the temp directory holds the file temp/docs/cv1.pdf
inside the created subdirectory temp/docs.  The finally block then calls
os.remove on the directory temp/docs, which raises IsADirectoryError: the
cleanup aborts with everything still on disk, os.rmdir is never reached,
and the exception raised in the finally block turns the whole batch — even
one whose every document succeeded — into a FAILED task.  A flat entry, by
contrast, is cleaned up completely and the batch completes. -/
theorem C9_cleanup_fails_on_nested_entry :
    tempFilesAfterRun sniffPdf [nestedEntryEx] = [["docs", "cv1.pdf"]] ∧
    tempDirsAfterRun [nestedEntryEx] = [["docs"]] ∧
    cleanupTemp [["docs", "cv1.pdf"]] [["docs"]] =
      (Except.error "IsADirectoryError: temp/docs",
        ([["docs", "cv1.pdf"]], [["docs"]])) ∧
    (process_cvs_task sniffPdf renderOkEx analyzeOk (Except.ok ()) roleEx "T" "N"
        (Except.ok [nestedEntryEx])).status = "FAILED" ∧
    tempFilesAfterRun sniffPdf [entryEx] = [["cv1.pdf"]] ∧
    tempDirsAfterRun [entryEx] = [] ∧
    cleanupTemp [["cv1.pdf"]] [] = (Except.ok (), ([], [])) ∧
    (process_cvs_task sniffPdf renderOkEx analyzeOk (Except.ok ()) roleEx "T" "N"
        (Except.ok [entryEx])).status = "COMPLETED" :=
  ⟨rfl, rfl, rfl, rfl, rfl, rfl, rfl, rfl⟩
